import Mathlib

/-!
Shallow embedding of the Roast-Bob mention pipeline.

The definitions below are translated from the repository sources:
  * src/mentions_service.py        (MentionService: redis-backed dedup loop)
  * src/clients/bluesky_client.py  (BlueskyClient: cursor state, get_mentions)
  * src/clients/openai_client.py   (OpenAIClient._make_api_call retry loop)
  * src/blusky_api/rate_limiter.py (RateLimiter sliding window)
  * src/services/scheduler.py      (SchedulerService.run_scheduled_task loop)
  * src/services/blusky_mention_service.py (BlueskyMentionService)

Time is modelled as integer seconds (Nat for the redis-backed service,
Int where a difference can be negative).  External calls (OpenAI, the
atproto API) are modelled by explicit outcome oracles: an environment
fixes, for each call the code would make, whether that call succeeds and
with what value, or raises.  Effects (generation calls made, replies
posted) are recorded in explicit logs threaded through the state.
-/

namespace RoastBob

/-! ## Association lists (used for the redis and rate-limiter maps) -/

def assocGet {β : Type} (l : List (String × β)) (k : String) : Option β :=
  match l with
  | [] => none
  | (k1, v) :: rest => if k1 = k then some v else assocGet rest k

def assocSet {β : Type} (l : List (String × β)) (k : String) (v : β) : List (String × β) :=
  match l with
  | [] => [(k, v)]
  | (k1, v1) :: rest => if k1 = k then (k1, v) :: rest else (k1, v1) :: assocSet rest k v

def assocDel {β : Type} (l : List (String × β)) (k : String) : List (String × β) :=
  l.filter (fun p => ¬ (p.1 = k))

/-! ## A small model of the redis commands the repository uses

`mentions_service.py` issues exactly these redis commands against the
dedup state: GET, SADD, SISMEMBER, EXPIRE (and SMEMBERS for a stats
route).  The model follows standard redis semantics: a key holds either
a string or a set, EXPIRE on a key that does not exist (or has already
expired) is a no-op, an expired key behaves as deleted, and set members
carry no individual time-to-live.  Expiry bookkeeping stores absolute
expiration timestamps. -/

structure RedisState where
  stringVal : List (String × String)
  setVal : List (String × List String)
  expiry : List (String × Nat)
  deriving Repr, DecidableEq

def emptyRedis : RedisState := { stringVal := [], setVal := [], expiry := [] }

def redisKeyPresent (r : RedisState) (k : String) : Bool :=
  (assocGet r.stringVal k).isSome ||
    (match assocGet r.setVal k with
     | some (_ :: _) => true
     | _ => false)

def redisKeyExpired (r : RedisState) (k : String) (now : Nat) : Bool :=
  match assocGet r.expiry k with
  | some t => decide (t ≤ now)
  | none => false

def redisKeyLive (r : RedisState) (k : String) (now : Nat) : Bool :=
  redisKeyPresent r k && ! redisKeyExpired r k now

/-- Lazy deletion: drop the key if it is present but already expired. -/
def redisPurge (r : RedisState) (k : String) (now : Nat) : RedisState :=
  if redisKeyPresent r k && redisKeyExpired r k now then
    { stringVal := assocDel r.stringVal k
      setVal := assocDel r.setVal k
      expiry := assocDel r.expiry k }
  else r

def redis_get (r : RedisState) (k : String) (now : Nat) : Option String :=
  if redisKeyLive r k now then assocGet r.stringVal k else none

def redis_sadd (r : RedisState) (k : String) (m : String) (now : Nat) : RedisState :=
  let r1 := redisPurge r k now
  match assocGet r1.setVal k with
  | some ms =>
      if m ∈ ms then r1
      else { r1 with setVal := assocSet r1.setVal k (ms ++ [m]) }
  | none => { r1 with setVal := assocSet r1.setVal k [m] }

def redis_sismember (r : RedisState) (k : String) (m : String) (now : Nat) : Bool :=
  redisKeyLive r k now &&
    (match assocGet r.setVal k with
     | some ms => decide (m ∈ ms)
     | none => false)

/-- EXPIRE sets a ttl on an existing, live key; on a missing or expired
key it does nothing. -/
def redis_expire (r : RedisState) (k : String) (seconds : Nat) (now : Nat) : RedisState :=
  if redisKeyLive r k now then { r with expiry := assocSet r.expiry k (now + seconds) }
  else r

/-! ## Error and outcome types for the external collaborators -/

/-- Errors that `OpenAIClient.generate_response` can surface.
`retriesExhausted` is the distinct TimeoutError raised by
`_make_api_call` after `max_retries` timeouts; `timedOut` is the raw
asyncio timeout of a single attempt; `apiError` is any other exception,
re-raised immediately. -/
inductive GenError
  | retriesExhausted (msg : String)
  | timedOut
  | apiError (msg : String)
  deriving Repr, DecidableEq

/-- Errors surfaced by the Bluesky client: the atproto exception type the
backoff decorator retries on. -/
inductive BskyError
  | atProtocolError (msg : String)
  deriving Repr, DecidableEq

inductive GenResult
  | ok (text : String)
  | err (e : GenError)
  deriving Repr, DecidableEq

inductive PostResult
  | ok (uri : String)
  | err (e : BskyError)
  deriving Repr, DecidableEq

/-! ## Mention events -/

/-- The mention dictionary built by `BlueskyClient.get_mentions` and
consumed by the services (only the fields the claims depend on).
`timestamp` is the indexing time of the mention, in epoch seconds. -/
structure Mention where
  uri : String
  text : String
  author : String
  reply_to : Option String
  timestamp : Int
  deriving Repr, DecidableEq

/-- Outcome oracle for the external calls `MentionService.process_mention`
makes: for a given mention, the result of `openai.generate_response` on
the context built from it, and for a given reply target, the result of
`bluesky.post_skeet`. -/
structure MentionEnv where
  gen : Mention → GenResult
  post : String → PostResult

/-! ## MentionService (src/mentions_service.py) -/

def PROCESSED_SET : String := "processed_mentions"

def LAST_CURSOR_STATE : String := "last_cursor_state"

/-- Seven days, the ttl used by `check_and_process_mentions`. -/
def PROCESSED_TTL : Nat := 7 * 24 * 60 * 60

/-- State threaded through `check_and_process_mentions`: the redis
database, the `SERVICE_STATE["mentions_processed"]` counter, and logs of
the external calls made (uris passed to `generate_response`, texts
successfully posted by `post_skeet`). -/
structure ServiceState where
  redis : RedisState
  mentions_processed : Nat
  genCalls : List String
  posted : List String
  deriving Repr, DecidableEq

/-- `MentionService.process_mention`: generate a response, post it, and
report success; any exception is caught and reported as failure.
Returns (success flag, generation calls made, texts posted). -/
def process_mention (env : MentionEnv) (m : Mention) : Bool × List String × List String :=
  match env.gen m with
  | GenResult.err _ => (false, [m.uri], [])
  | GenResult.ok response =>
      match env.post m.uri with
      | PostResult.err _ => (false, [m.uri], [])
      | PostResult.ok _ => (true, [m.uri], [response])

/-- The body `check_and_process_mentions` runs after a successful
`process_mention`: `redis_client.sadd(PROCESSED_SET, uri)` followed by
`redis_client.expire(uri, 7 * 24 * 60 * 60)` — note the EXPIRE is issued
against the key named by the mention uri itself, not against the set. -/
def markProcessed (r : RedisState) (uri : String) (now : Nat) : RedisState :=
  redis_expire (redis_sadd r PROCESSED_SET uri now) uri PROCESSED_TTL now

/-- `redis_client.sismember(PROCESSED_SET, uri)`. -/
def isProcessed (r : RedisState) (uri : String) (now : Nat) : Bool :=
  redis_sismember r PROCESSED_SET uri now

/-- One iteration of the per-mention loop in
`MentionService.check_and_process_mentions`. -/
def processOne (env : MentionEnv) (now : Nat) (st : ServiceState) (m : Mention) : ServiceState :=
  if isProcessed st.redis m.uri now = false then
    let res := process_mention env m
    let st1 : ServiceState :=
      { st with genCalls := st.genCalls ++ res.2.1, posted := st.posted ++ res.2.2 }
    if res.1 then
      { st1 with
          redis := markProcessed st1.redis m.uri now
          mentions_processed := st1.mentions_processed + 1 }
    else st1
  else st

/-- `MentionService.check_and_process_mentions` over a fetched batch. -/
def check_and_process_mentions (env : MentionEnv) (now : Nat) (st : ServiceState)
    (mentions : List Mention) : ServiceState :=
  mentions.foldl (processOne env now) st

/-! ## BlueskyClient (src/clients/bluesky_client.py)

The class body defines `get_mentions` twice.  In Python the later
definition rebinds the attribute name, so the second (cursor-free)
definition is the one every caller gets; the first (cursor-aware)
definition is dead code.  Both are embedded below: the platform response
to the `list_notifications` call is an explicit input. -/

structure Notification where
  reason : String
  uri : String
  text : String
  deriving Repr, DecidableEq

structure NotificationsResponse where
  notifications : List Notification
  cursor : Option String
  deriving Repr, DecidableEq

/-- The only cursor-relevant client state: `self._last_cursor`. -/
structure BlueskyClientState where
  last_cursor : Option String
  deriving Repr, DecidableEq

/-- First `get_mentions` definition in the class body (lines 32-76),
the cursor-aware one: it sends the stored cursor with the request,
unconditionally overwrites `_last_cursor` with the cursor of the
response, and returns the mention notifications together with the new
cursor.  Dead code: the second definition below shadows it. -/
def get_mentions_cursor_aware (st : BlueskyClientState) (resp : NotificationsResponse)
    (limit : Nat) : BlueskyClientState × List Notification × Option String :=
  let st1 : BlueskyClientState := { st with last_cursor := resp.cursor }
  let ms := (resp.notifications.filter (fun n => n.reason = "mention")).take limit
  (st1, ms, st1.last_cursor)

/-- Second `get_mentions` definition in the class body (lines 226-263).
This is the definition Python binds to the name, hence the one
`MentionService.check_and_process_mentions` calls.  It neither reads nor
writes `_last_cursor`: the client state is returned unchanged. -/
def get_mentions (st : BlueskyClientState) (resp : NotificationsResponse)
    (limit : Nat) : BlueskyClientState × List Notification :=
  (st, (resp.notifications.filter (fun n => n.reason = "mention")).take limit)

/-- `BlueskyClient.set_cursor` (the manual override). -/
def set_cursor (st : BlueskyClientState) (cursor : Option String) : BlueskyClientState :=
  { st with last_cursor := cursor }

/-- `BlueskyClient.get_cursor_state` (cursor component). -/
def get_cursor_state (st : BlueskyClientState) : Option String :=
  st.last_cursor

/-- A sequence of polls through the effective `get_mentions`, one
platform response per poll. -/
def run_fetches (st : BlueskyClientState) (resps : List NotificationsResponse)
    : BlueskyClientState :=
  resps.foldl (fun s r => (get_mentions s r 20).1) st

/-- `MentionService._initialize_from_redis`: read the durable key
`last_cursor_state`; if present, restore the cursor from it via
`set_cursor`, otherwise leave the client untouched.  The JSON wrapper
around the stored cursor is elided: the stored string value is taken to
be the cursor itself (no code in the repository ever writes this key, so
only presence or absence is observable). -/
def init_from_redis (r : RedisState) (now : Nat) (st : BlueskyClientState)
    : BlueskyClientState :=
  match redis_get r LAST_CURSOR_STATE now with
  | some stored => set_cursor st (some stored)
  | none => st

/-! ## OpenAIClient._make_api_call (src/clients/openai_client.py)

The while-loop retries only on the per-attempt asyncio timeout, up to
`max_retries = 3` attempts; when the third attempt also times out it
raises a fresh `TimeoutError("OpenAI API call timed out after multiple
retries")` in place of the raw asyncio timeout; any other exception is
re-raised immediately.  The outcome of each physical attempt is an
explicit input list (which must cover the attempts made). -/

inductive AttemptOutcome
  | ok (resp : String)
  | timeout
  | fail (msg : String)
  deriving Repr, DecidableEq

def make_api_call_loop (maxRetries : Nat) (currentRetry : Nat)
    : List AttemptOutcome → Except GenError String
  | [] => Except.error (GenError.apiError ("no attempt outcome provided"))
  | o :: rest =>
      if currentRetry < maxRetries then
        match o with
        | AttemptOutcome.ok r => Except.ok r
        | AttemptOutcome.timeout =>
            if currentRetry + 1 = maxRetries then
              Except.error
                (GenError.retriesExhausted ("OpenAI API call timed out after multiple retries"))
            else make_api_call_loop maxRetries (currentRetry + 1) rest
        | AttemptOutcome.fail msg => Except.error (GenError.apiError msg)
      else Except.error (GenError.apiError ("retry loop fell through"))

def make_api_call (outcomes : List AttemptOutcome) : Except GenError String :=
  make_api_call_loop 3 0 outcomes

/-- `generate_response` forwards the result of `_make_api_call` and
re-raises its exceptions unchanged. -/
def generate_response (outcomes : List AttemptOutcome) : Except GenError String :=
  make_api_call outcomes

/-! ## backoff.on_exception on the Bluesky calls

`post_skeet` (and the other client calls) are wrapped in
`backoff.on_exception(backoff.expo, AtProtocolError, max_tries=3)`.
The library retries the call on the listed exception; once `max_tries`
calls have failed it re-raises the most recent exception unchanged — it
does not wrap it in any distinct giving-up error. -/

inductive PostAttempt
  | ok (uri : String)
  | atError (msg : String)
  deriving Repr, DecidableEq

def backoff_on_exception (maxTries : Nat)
    : List PostAttempt → Except BskyError String
  | [] => Except.error (BskyError.atProtocolError ("no attempt outcome provided"))
  | o :: rest =>
      match o with
      | PostAttempt.ok uri => Except.ok uri
      | PostAttempt.atError msg =>
          if maxTries ≤ 1 then Except.error (BskyError.atProtocolError msg)
          else backoff_on_exception (maxTries - 1) rest

/-- `post_skeet` as seen by callers: the backoff-wrapped call with
`max_tries = 3`. -/
def post_skeet_wrapped (attempts : List PostAttempt) : Except BskyError String :=
  backoff_on_exception 3 attempts

/-! ## RateLimiter (src/blusky_api/rate_limiter.py)

Timestamps are integer seconds.  `wait_if_needed` returns the updated
limiter together with the admission time (the time after the single
sleep, if any).  The decorator built by `limit_request` first runs
`_wait_if_needed`, then the wrapped function (taking `duration`
seconds), then `_record_request`, which appends the completion-time
timestamp. -/

structure RateLimiter where
  max_requests : Nat
  window_minutes : Nat
  request_timestamps : List (String × List Int)
  deriving Repr, DecidableEq

def windowSeconds (rl : RateLimiter) : Int :=
  (rl.window_minutes : Int) * 60

/-- `RateLimiter._wait_if_needed`: on an unseen endpoint, create its
empty list and return at once; otherwise prune timestamps at or before
`now - window`, and if at least `max_requests` remain, sleep for
`oldest + window - now` seconds when that is positive.  There is no
re-check after the sleep.  (With `max_requests = 0` and an empty pruned
list the Python code would raise an IndexError reading element 0; that
unreachable branch returns without waiting here.) -/
def wait_if_needed (rl : RateLimiter) (endpoint : String) (now : Int)
    : RateLimiter × Int :=
  match assocGet rl.request_timestamps endpoint with
  | none =>
      ({ rl with request_timestamps := assocSet rl.request_timestamps endpoint [] }, now)
  | some tss =>
      let window_start := now - windowSeconds rl
      let pruned := tss.filter (fun ts => window_start < ts)
      let rl1 : RateLimiter :=
        { rl with request_timestamps := assocSet rl.request_timestamps endpoint pruned }
      if rl.max_requests ≤ pruned.length then
        match pruned with
        | [] => (rl1, now)
        | oldest :: _ =>
            let wait := oldest + windowSeconds rl - now
            if 0 < wait then (rl1, now + wait) else (rl1, now)
      else (rl1, now)

/-- `RateLimiter._record_request`: append the current time. -/
def record_request (rl : RateLimiter) (endpoint : String) (now : Int) : RateLimiter :=
  match assocGet rl.request_timestamps endpoint with
  | none =>
      { rl with request_timestamps := assocSet rl.request_timestamps endpoint [now] }
  | some tss =>
      { rl with request_timestamps := assocSet rl.request_timestamps endpoint (tss ++ [now]) }

/-- The wrapper produced by `RateLimiter.limit_request`: wait, run the
wrapped function (for `duration` seconds), then record.  Returns
(final limiter, admission time, completion time); the recorded
timestamp is the completion time, because `_record_request` runs after
the wrapped call. -/
def limit_request (rl : RateLimiter) (endpoint : String) (now : Int) (duration : Int)
    : RateLimiter × Int × Int :=
  let w := wait_if_needed rl endpoint now
  let tDone := w.2 + duration
  (record_request w.1 endpoint tDone, w.2, tDone)

/-- Modelled from the spec: the acquire contract as the spec words it,
"else record now and return immediately" — the request timestamp is
recorded at the time of admission, before the wrapped call runs.  Kept
only for comparison with `limit_request` above. -/
def limit_request_spec (rl : RateLimiter) (endpoint : String) (now : Int) (duration : Int)
    : RateLimiter × Int × Int :=
  let w := wait_if_needed rl endpoint now
  (record_request w.1 endpoint w.2, w.2, w.2 + duration)

/-! ## SchedulerService (src/services/scheduler.py)

One iteration of the while-loop inside `run_scheduled_task`: run the
body; on success set `last_run[name] = now`; on an exception, log and
fall through — `last_run` is left unchanged.  Either way the loop then
sleeps and continues. -/

inductive BodyOutcome
  | ok
  | raised (msg : String)
  deriving Repr, DecidableEq

/-- One tick: returns the new `last_run` and whether the loop continues
to the next interval. -/
def run_scheduled_task_tick (last_run : Int) (now : Int) (outcome : BodyOutcome)
    : Int × Bool :=
  match outcome with
  | BodyOutcome.ok => (now, true)
  | BodyOutcome.raised _ => (last_run, true)

/-- The loop over a finite schedule of ticks, each given as the wall
time of the tick and the outcome of the body at that tick.  Returns the
final `last_run` and the number of ticks that actually executed. -/
def run_scheduled_task_loop (last_run : Int) : List (Int × BodyOutcome) → Int × Nat
  | [] => (last_run, 0)
  | (now, o) :: rest =>
      let t := run_scheduled_task_tick last_run now o
      let r := run_scheduled_task_loop t.1 rest
      (r.1, r.2 + 1)

/-! ## BlueskyMentionService (src/services/blusky_mention_service.py)

The in-memory dedup service.  `_should_process_mention` first checks
membership in `processed_mentions` (returning False before the
timestamp is touched); it then parses the mention timestamp with
`fromisoformat` after replacing a Z suffix by +00:00 and computes
`datetime.now() - mention_time`.  `datetime.now()` is offset-naive, so
when the parsed timestamp carries an offset — as the Z-suffixed
RFC-3339 `indexed_at` strings both client implementations supply
always do — this subtraction raises a TypeError rather than producing
a difference; only an offset-naive timestamp string reaches the
one-hour staleness comparison.  Each batch entry therefore carries,
besides the epoch seconds of `Mention.timestamp`, a flag saying
whether its timestamp string has timezone info.  `handle_mentions`
runs its whole loop inside one try: a TypeError escaping the guard is
caught by the surrounding catch-all, which logs it and returns an
empty result list, keeping the state mutations made before the raise.
`_process_mention` generates a reply, posts it, and only then adds the
uri to `processed_mentions`; its own exceptions are caught inside it
and yield None.  Logs record the uris for which `generate_reply` was
invoked and the reply targets of successful `post_skeet` calls; the
local `processed` result list (and `_store_mention` feeding off it) is
the accumulator returned by `handle_mentions`. -/

structure BMSState where
  processed_mentions : List String
  genCalls : List String
  postedReplies : List String
  deriving Repr, DecidableEq

structure BMSEnv where
  generate_reply : Mention → Option String
  post_skeet : String → Option String

/-- Outcome of `_should_process_mention`: `ret` is the returned boolean;
`typeError` is the TypeError raised when the offset-aware parsed mention
time is subtracted from the offset-naive `datetime.now()`. -/
inductive GuardResult
  | ret (b : Bool)
  | typeError
  deriving Repr, DecidableEq

/-- `BlueskyMentionService._should_process_mention`.  `tsAware` says
whether the mention timestamp string carries timezone info (true for
the Z-suffixed strings both clients emit): an already-processed uri
returns false before the timestamp is parsed; otherwise an offset-aware
timestamp raises, and only an offset-naive one reaches the staleness
comparison. -/
def should_process_mention (processed : List String) (now : Int) (m : Mention)
    (tsAware : Bool) : GuardResult :=
  if m.uri ∈ processed then GuardResult.ret false
  else if tsAware then GuardResult.typeError
  else if 3600 < now - m.timestamp then GuardResult.ret false
  else GuardResult.ret true

/-- `BlueskyMentionService._process_mention`. -/
def bms_process_mention (env : BMSEnv) (st : BMSState) (m : Mention)
    : BMSState × Option String :=
  let st1 : BMSState := { st with genCalls := st.genCalls ++ [m.uri] }
  match env.generate_reply m with
  | none => (st1, none)
  | some response =>
      match env.post_skeet m.uri with
      | none => (st1, none)
      | some _ =>
          ({ st1 with
              postedReplies := st1.postedReplies ++ [m.uri]
              processed_mentions :=
                if m.uri ∈ st1.processed_mentions then st1.processed_mentions
                else st1.processed_mentions ++ [m.uri] }, some response)

/-- The for-loop inside `handle_mentions`, threading the local
`processed` accumulator; `none` in the second component means a
TypeError escaped the guard, aborting the rest of the loop. -/
def handle_mentions_loop (env : BMSEnv) (now : Int)
    : List (Mention × Bool) → BMSState → List (String × String)
      → BMSState × Option (List (String × String))
  | [], st, acc => (st, some acc)
  | (m, tsAware) :: rest, st, acc =>
      match should_process_mention st.processed_mentions now m tsAware with
      | GuardResult.typeError => (st, none)
      | GuardResult.ret false => handle_mentions_loop env now rest st acc
      | GuardResult.ret true =>
          let pr := bms_process_mention env st m
          match pr.2 with
          | some r => handle_mentions_loop env now rest pr.1 (acc ++ [(m.uri, r)])
          | none => handle_mentions_loop env now rest pr.1 acc

/-- `BlueskyMentionService.handle_mentions`: the loop under the
catch-all — an escaping TypeError is logged and an empty list is
returned, with the state mutations made before the raise kept. -/
def handle_mentions (env : BMSEnv) (now : Int) (st : BMSState)
    (ms : List (Mention × Bool)) : BMSState × List (String × String) :=
  match handle_mentions_loop env now ms st [] with
  | (st1, some res) => (st1, res)
  | (st1, none) => (st1, [])

/-! ## Concrete fixtures used by the scenario theorems -/

def mA : Mention :=
  { uri := "at://A", text := "ta", author := "alice", reply_to := none, timestamp := 0 }

def mB : Mention :=
  { uri := "at://B", text := "tb", author := "bob", reply_to := none, timestamp := 0 }

def mC : Mention :=
  { uri := "at://C", text := "tc", author := "carol", reply_to := none, timestamp := 0 }

/-- Environment in which every external call succeeds. -/
def allOkEnv : MentionEnv :=
  { gen := fun m => GenResult.ok ("resp-" ++ m.uri)
    post := fun u => PostResult.ok ("post-" ++ u) }

/-- Environment in which response generation always raises. -/
def genFailEnv : MentionEnv :=
  { gen := fun _ => GenResult.err (GenError.apiError ("boom"))
    post := fun u => PostResult.ok ("post-" ++ u) }

/-- Fresh service state over an empty redis. -/
def st0 : ServiceState :=
  { redis := emptyRedis, mentions_processed := 0, genCalls := [], posted := [] }

/-- First poll of the C2 scenario: fetch returns [A, B]. -/
def s1 : ServiceState := check_and_process_mentions allOkEnv 1000 st0 [mA, mB]

/-- Second poll of the C2 scenario: the platform redelivers B, then C. -/
def s2 : ServiceState := check_and_process_mentions allOkEnv 1000 s1 [mB, mC]

/-- A platform response carrying one mention notification and a cursor. -/
def respWith (u c : String) : NotificationsResponse :=
  { notifications := [{ reason := "mention", uri := u, text := "hi" }], cursor := some c }

/-! ## Assoc-list lemmas -/

theorem assocGet_assocSet_self {β : Type} (l : List (String × β)) (k : String) (v : β) :
    assocGet (assocSet l k v) k = some v := by
  induction l with
  | nil => simp [assocGet, assocSet]
  | cons p rest ih =>
      obtain ⟨k1, v1⟩ := p
      by_cases h : k1 = k
      · simp [assocGet, assocSet, h]
      · simp [assocGet, assocSet, h, ih]

theorem assocGet_filter_none {β : Type} (l : List (String × β)) (k : String)
    (p : String × β → Bool) (h : assocGet l k = none) :
    assocGet (l.filter p) k = none := by
  induction l with
  | nil => simp [assocGet]
  | cons q rest ih =>
      obtain ⟨k1, v1⟩ := q
      by_cases hk : k1 = k
      · simp [assocGet, hk] at h
      · simp only [assocGet, hk, if_neg hk] at h
        by_cases hp : p (k1, v1)
        · simpa [List.filter, hp, assocGet, hk] using ih h
        · simpa [List.filter, hp] using ih h

theorem assocGet_assocDel_none {β : Type} (l : List (String × β)) (k k2 : String)
    (h : assocGet l k = none) : assocGet (assocDel l k2) k = none :=
  assocGet_filter_none l k _ h

/-! ## The mention-service state never writes the cursor key -/

theorem redisPurge_stringVal_none (r : RedisState) (k k2 : String) (now : Nat)
    (h : assocGet r.stringVal k = none) :
    assocGet (redisPurge r k2 now).stringVal k = none := by
  unfold redisPurge
  split
  · exact assocGet_assocDel_none _ _ _ h
  · exact h

theorem redis_sadd_stringVal (r : RedisState) (k m : String) (now : Nat) :
    (redis_sadd r k m now).stringVal = (redisPurge r k now).stringVal := by
  unfold redis_sadd
  dsimp only
  split
  · split <;> rfl
  · rfl

theorem redis_expire_stringVal (r : RedisState) (k : String) (s now : Nat) :
    (redis_expire r k s now).stringVal = r.stringVal := by
  unfold redis_expire
  split <;> rfl

theorem markProcessed_stringVal_none (r : RedisState) (uri : String) (now : Nat) (k : String)
    (h : assocGet r.stringVal k = none) :
    assocGet (markProcessed r uri now).stringVal k = none := by
  unfold markProcessed
  rw [redis_expire_stringVal, redis_sadd_stringVal]
  exact redisPurge_stringVal_none r k PROCESSED_SET now h

theorem processOne_stringVal_none (env : MentionEnv) (now : Nat) (st : ServiceState)
    (m : Mention) (k : String) (h : assocGet st.redis.stringVal k = none) :
    assocGet (processOne env now st m).redis.stringVal k = none := by
  by_cases hm : isProcessed st.redis m.uri now = false
  · by_cases hr : (process_mention env m).1 = true
    · simp only [processOne, hm, hr, if_true, if_pos]
      exact markProcessed_stringVal_none _ _ _ _ h
    · simp [processOne, hm, hr]
      exact h
  · simp [processOne, hm]
    exact h

theorem check_and_process_stringVal_none (env : MentionEnv) (now : Nat)
    (ms : List Mention) :
    ∀ (st : ServiceState) (k : String), assocGet st.redis.stringVal k = none →
      assocGet (check_and_process_mentions env now st ms).redis.stringVal k = none := by
  induction ms with
  | nil => intro st k h; exact h
  | cons m rest ih =>
      intro st k h
      exact ih (processOne env now st m) k (processOne_stringVal_none env now st m k h)

/-! ## Claim theorems -/

/-- C1: for every mention event, the id is committed to the processed set only
after the reply post has succeeded.  If response generation or posting raises,
`process_mention` reports failure and posts no reply, and the per-mention step
of `check_and_process_mentions` leaves the redis state (hence the processed
set) unchanged, so the event stays eligible for a later poll.  Conversely, if
the id reports processed after the step, either it was already processed or
both the generation and the post succeeded: a successful post is the sole path
that adds the id. -/
theorem C1_commit_only_after_successful_post (env : MentionEnv) (now : Nat)
    (st : ServiceState) (m : Mention) :
    (((∃ e, env.gen m = GenResult.err e) ∨ (∃ e, env.post m.uri = PostResult.err e)) →
      (process_mention env m).1 = false ∧ (process_mention env m).2.2 = [] ∧
      (processOne env now st m).redis = st.redis)
    ∧ (isProcessed (processOne env now st m).redis m.uri now = true →
        isProcessed st.redis m.uri now = true ∨
        ((∃ t, env.gen m = GenResult.ok t) ∧ (∃ u, env.post m.uri = PostResult.ok u))) := by
  constructor
  · intro hfail
    have hpm : (process_mention env m).1 = false ∧ (process_mention env m).2.2 = [] := by
      rcases hfail with ⟨e, he⟩ | ⟨e, he⟩
      · simp [process_mention, he]
      · cases hg : env.gen m with
        | err e2 => simp [process_mention, hg]
        | ok t => simp [process_mention, hg, he]
    refine ⟨hpm.1, hpm.2, ?_⟩
    by_cases hm : isProcessed st.redis m.uri now = false
    · have hr : ¬ ((process_mention env m).1 = true) := by simp [hpm.1]
      simp [processOne, hm, hr]
    · simp [processOne, hm]
  · intro hmem
    by_cases hm : isProcessed st.redis m.uri now = false
    · right
      cases hg : env.gen m with
      | err e =>
          exfalso
          have hr : ¬ ((process_mention env m).1 = true) := by simp [process_mention, hg]
          have heq : (processOne env now st m).redis = st.redis := by
            simp [processOne, hm, hr]
          rw [heq, hm] at hmem
          exact absurd hmem (by decide)
      | ok t =>
          cases hp : env.post m.uri with
          | err e =>
              exfalso
              have hr : ¬ ((process_mention env m).1 = true) := by
                simp [process_mention, hg, hp]
              have heq : (processOne env now st m).redis = st.redis := by
                simp [processOne, hm, hr]
              rw [heq, hm] at hmem
              exact absurd hmem (by decide)
          | ok u => exact ⟨⟨t, rfl⟩, ⟨u, rfl⟩⟩
    · left
      cases hb : isProcessed st.redis m.uri now with
      | false => exact absurd hb hm
      | true => rfl

/-- Witness for C1 at a concrete input: generation for mention A raises, the
step reports failure, posts nothing, and leaves redis unchanged. -/
theorem C1_commit_only_after_successful_post_witness :
    (process_mention genFailEnv mA).1 = false
    ∧ (process_mention genFailEnv mA).2.2 = []
    ∧ (processOne genFailEnv 1000 st0 mA).redis = st0.redis :=
  (C1_commit_only_after_successful_post genFailEnv 1000 st0 mA).1
    (Or.inl ⟨GenError.apiError ("boom"), rfl⟩)

/-- C2: an id already in the processed set is never reprocessed when a fetch
redelivers it — the per-mention step is the identity on such mentions (no
generation call, no post, no counter change).  Concretely, after processing
[A, B] successfully, a second poll delivering [B, C] generates and posts only
for C, and the final processed set is {A, B, C} with a total of 3 processed. -/
theorem C2_redelivered_ids_never_reprocessed :
    (∀ (env : MentionEnv) (now : Nat) (st : ServiceState) (m : Mention),
        isProcessed st.redis m.uri now = true → processOne env now st m = st)
    ∧ s1.redis.setVal = [(PROCESSED_SET, ["at://A", "at://B"])]
    ∧ s1.mentions_processed = 2
    ∧ s2.redis.setVal = [(PROCESSED_SET, ["at://A", "at://B", "at://C"])]
    ∧ s2.mentions_processed = 3
    ∧ s2.genCalls = ["at://A", "at://B", "at://C"]
    ∧ s2.posted = ["resp-at://A", "resp-at://B", "resp-at://C"] := by
  refine ⟨?_, by decide, by decide, by decide, by decide, by decide, by decide⟩
  intro env now st m h
  simp [processOne, h]

/-- Witness for C2: redelivered B is skipped — the step is the identity. -/
theorem C2_redelivered_ids_never_reprocessed_witness :
    processOne allOkEnv 1000 s1 mB = s1 :=
  (C2_redelivered_ids_never_reprocessed).1 allOkEnv 1000 s1 mB (by decide)

/-- C3 (code bug): the `get_mentions` actually bound on `BlueskyClient` — the
second, shadowing definition — never reads or writes the stored cursor, so on
a non-empty platform response carrying cursor c1 the stored cursor stays
`none` instead of advancing to c1.  The first conjunct shows the effective
fetch leaves the client state unchanged on every input; the last conjunct
shows the shadowed cursor-aware definition would have advanced it. -/
theorem C3_fetch_does_not_advance_cursor :
    (∀ (st : BlueskyClientState) (resp : NotificationsResponse) (limit : Nat),
        (get_mentions st resp limit).1 = st)
    ∧ (get_mentions { last_cursor := none } (respWith ("at://m1") ("c1")) 20).1.last_cursor
        = none
    ∧ ¬ (get_mentions { last_cursor := none } (respWith ("at://m1") ("c1")) 20).1.last_cursor
        = some ("c1")
    ∧ (get_mentions_cursor_aware { last_cursor := none } (respWith ("at://m1") ("c1")) 20).1.last_cursor
        = some ("c1") :=
  ⟨fun _ _ _ => rfl, rfl, by decide, rfl⟩

/-- C4 (code bug): across a sequence of fetches whose platform responses carry
cursors c1, c2, c3, the stored cursor never advances at all — it remains the
initial `none` rather than ending at c3 — because the shadowing `get_mentions`
definition ignores the cursor. -/
theorem C4_cursor_stays_absent_across_fetches :
    run_fetches { last_cursor := none }
        [respWith ("at://m1") ("c1"), respWith ("at://m2") ("c2"), respWith ("at://m3") ("c3")]
      = { last_cursor := none }
    ∧ ¬ (run_fetches { last_cursor := none }
        [respWith ("at://m1") ("c1"), respWith ("at://m2") ("c2"),
          respWith ("at://m3") ("c3")]).last_cursor = some ("c3") :=
  ⟨rfl, by decide⟩

/-- C6 (code bug): an id marked processed at time 0 still reports processed
after the 7-day ttl has elapsed, because the EXPIRE is issued against the key
named by the uri (which does not exist) rather than against the set, and set
members carry no per-entry ttl: the expiry table stays empty. -/
theorem C6_processed_id_outlives_ttl :
    isProcessed (markProcessed emptyRedis ("at://A") 0) ("at://A") (PROCESSED_TTL - 1) = true
    ∧ isProcessed (markProcessed emptyRedis ("at://A") 0) ("at://A") (PROCESSED_TTL + 1) = true
    ∧ (markProcessed emptyRedis ("at://A") 0).expiry = [] :=
  ⟨by decide, by decide, rfl⟩

/-- C5 (code bug): nothing mirrors the cursor to the durable key
`last_cursor_state` that `_initialize_from_redis` reads.  The processing loop
never writes any redis string key, so from any state in which the key is
absent it is still absent after any sequence of polls, and a freshly
initialized service restores nothing: it resumes with `last_cursor = none`,
not with the cursor in effect before shutdown. -/
theorem C5_cursor_state_not_durable (env : MentionEnv) (now : Nat) (st : ServiceState)
    (ms : List Mention) (h : assocGet st.redis.stringVal LAST_CURSOR_STATE = none) :
    assocGet (check_and_process_mentions env now st ms).redis.stringVal LAST_CURSOR_STATE
      = none
    ∧ init_from_redis (check_and_process_mentions env now st ms).redis now
        { last_cursor := none } = { last_cursor := none } := by
  have h1 := check_and_process_stringVal_none env now ms st LAST_CURSOR_STATE h
  have h2 : redis_get (check_and_process_mentions env now st ms).redis LAST_CURSOR_STATE now
      = none := by
    unfold redis_get
    split
    · exact h1
    · rfl
  refine ⟨h1, ?_⟩
  unfold init_from_redis
  rw [h2]

/-- Witness for C5: one successful poll from a fresh state; the durable cursor
key is still absent afterwards and restart restores no cursor. -/
theorem C5_cursor_state_not_durable_witness :
    assocGet (check_and_process_mentions allOkEnv 1000 st0 [mA]).redis.stringVal
        LAST_CURSOR_STATE = none
    ∧ init_from_redis (check_and_process_mentions allOkEnv 1000 st0 [mA]).redis 1000
        { last_cursor := none } = { last_cursor := none } :=
  C5_cursor_state_not_durable allOkEnv 1000 st0 [mA] rfl

/-- C7 counterexample: when all `max_tries = 3` attempts of the backoff-wrapped
`post_skeet` fail, the caller does not receive a distinct RetriesExhausted
wrapper — backoff re-raises the raw last underlying AtProtocolError, the very
same error value that a single unwrapped failing call produces (second
conjunct), so the result is not distinguishable from the raw underlying
error. -/
theorem C7_backoff_reraises_raw_error :
    post_skeet_wrapped
        [PostAttempt.atError ("e1"), PostAttempt.atError ("e2"), PostAttempt.atError ("e3")]
      = Except.error (BskyError.atProtocolError ("e3"))
    ∧ backoff_on_exception 1 [PostAttempt.atError ("e3")]
      = Except.error (BskyError.atProtocolError ("e3")) :=
  ⟨rfl, rfl⟩

/-- The three-timeout schedule of attempt outcomes for the generation call. -/
def exhaustOutcomes : List AttemptOutcome :=
  [AttemptOutcome.timeout, AttemptOutcome.timeout, AttemptOutcome.timeout]

/-- Environment in which generation times out on all three attempts (so
`generate_response` surfaces the distinct exhausted error) and posting would
succeed. -/
def exhaustEnv : MentionEnv :=
  { gen := fun _ =>
      match generate_response exhaustOutcomes with
      | Except.ok t => GenResult.ok t
      | Except.error e => GenResult.err e
    post := fun u => PostResult.ok ("post-" ++ u) }

/-- C7 amended: under three transient generation timeouts with three attempts,
`_make_api_call` raises the distinct exhausted TimeoutError — different from
success and from the raw per-attempt asyncio timeout — and when that error
surfaces to the processor the mention is reported failed, the id stays
unmarked, and no reply is posted. -/
theorem C7_generation_timeout_exhaustion :
    generate_response exhaustOutcomes
      = Except.error
        (GenError.retriesExhausted ("OpenAI API call timed out after multiple retries"))
    ∧ ¬ generate_response exhaustOutcomes = Except.error GenError.timedOut
    ∧ (∀ t, ¬ generate_response exhaustOutcomes = Except.ok t)
    ∧ process_mention exhaustEnv mA = (false, ["at://A"], [])
    ∧ (processOne exhaustEnv 1000 st0 mA).redis = st0.redis
    ∧ (processOne exhaustEnv 1000 st0 mA).posted = [] := by
  refine ⟨rfl, ?_, ?_, rfl, rfl, rfl⟩
  · intro h
    exact absurd (Except.error.inj h) (by decide)
  · intro t h
    exact Except.noConfusion h

/-- C9 counterexample: a tick whose body raises leaves `last_run` unchanged
(the update sits inside the try-block, after the body call), refuting the
claim that `lastRun` is set to the current time regardless of the body
outcome.  The loop does continue. -/
theorem C9_lastrun_unchanged_on_failure :
    run_scheduled_task_tick 0 100 (BodyOutcome.raised ("boom")) = (0, true)
    ∧ ¬ (run_scheduled_task_tick 0 100 (BodyOutcome.raised ("boom"))).1 = 100 := by
  decide

/-- C9 amended: on every tick the loop continues regardless of the body
outcome, `last_run` is set to the current time exactly when the body
succeeded and left unchanged when it raised, and every scheduled tick of a
finite schedule executes (a raising body never stops the schedule). -/
theorem C9_lastrun_only_on_success (last_run now : Int) (o : BodyOutcome)
    (ticks : List (Int × BodyOutcome)) :
    (run_scheduled_task_tick last_run now o).2 = true
    ∧ (o = BodyOutcome.ok → (run_scheduled_task_tick last_run now o).1 = now)
    ∧ (∀ msg, o = BodyOutcome.raised msg → (run_scheduled_task_tick last_run now o).1 = last_run)
    ∧ (run_scheduled_task_loop last_run ticks).2 = ticks.length := by
  refine ⟨?_, ?_, ?_, ?_⟩
  · cases o <;> rfl
  · intro h; subst h; rfl
  · intro msg h; subst h; rfl
  · induction ticks generalizing last_run with
    | nil => rfl
    | cons t rest ih =>
        obtain ⟨tn, tb⟩ := t
        simp [run_scheduled_task_loop, ih]

/-- Witness for C9 amended: a succeeding tick records the time, a raising tick
keeps the old value. -/
theorem C9_lastrun_only_on_success_witness :
    (run_scheduled_task_tick 0 100 BodyOutcome.ok).1 = 100
    ∧ (run_scheduled_task_tick 0 100 (BodyOutcome.raised ("x"))).1 = 0 :=
  ⟨(C9_lastrun_only_on_success 0 100 BodyOutcome.ok []).2.1 rfl,
   (C9_lastrun_only_on_success 0 100 (BodyOutcome.raised ("x")) []).2.2.1 ("x") rfl⟩

/-! ## C8: the rate limiter -/

/-- A limiter that has seen its endpoint (with an empty window). -/
def rlC8 : RateLimiter :=
  { max_requests := 3, window_minutes := 1, request_timestamps := [("default", [])] }

/-- C8 counterexample: the wrapped call admits at time 100 and takes 5 seconds;
the code records the request timestamp 105 — the time `_record_request` runs,
after the wrapped call returns — not the admission time 100 that the claim
(and `limit_request_spec`, written from its words) requires. -/
theorem C8_request_recorded_after_call :
    ¬ limit_request rlC8 ("default") 100 5 = limit_request_spec rlC8 ("default") 100 5
    ∧ (limit_request rlC8 ("default") 100 5).1.request_timestamps = [("default", [105])]
    ∧ (limit_request_spec rlC8 ("default") 100 5).1.request_timestamps = [("default", [100])] := by
  refine ⟨by decide, rfl, rfl⟩

theorem filter_head_lt (tss : List Int) (bound oldest : Int) (rest : List Int)
    (h : tss.filter (fun ts => bound < ts) = oldest :: rest) : bound < oldest := by
  have hm : oldest ∈ tss.filter (fun ts => decide (bound < ts)) := by
    rw [h]
    exact List.mem_cons_self oldest rest
  have := List.of_mem_filter hm
  simpa using this

theorem wait_if_needed_state (rl : RateLimiter) (endpoint : String) (now : Int)
    (tss : List Int) (hend : assocGet rl.request_timestamps endpoint = some tss) :
    (wait_if_needed rl endpoint now).1.request_timestamps
      = assocSet rl.request_timestamps endpoint
          (tss.filter (fun ts => now - windowSeconds rl < ts)) := by
  unfold wait_if_needed
  rw [hend]
  dsimp only
  split
  · split
    · rfl
    · split <;> rfl
  · rfl

theorem wait_if_needed_admit_low (rl : RateLimiter) (endpoint : String) (now : Int)
    (tss : List Int) (hend : assocGet rl.request_timestamps endpoint = some tss)
    (hlow : (tss.filter (fun ts => now - windowSeconds rl < ts)).length < rl.max_requests) :
    (wait_if_needed rl endpoint now).2 = now := by
  unfold wait_if_needed
  rw [hend]
  dsimp only
  rw [if_neg (by omega)]

theorem wait_if_needed_admit_full (rl : RateLimiter) (endpoint : String) (now : Int)
    (tss : List Int) (oldest : Int) (rest : List Int)
    (hend : assocGet rl.request_timestamps endpoint = some tss)
    (hp : tss.filter (fun ts => now - windowSeconds rl < ts) = oldest :: rest)
    (hfull : rl.max_requests ≤ (oldest :: rest).length) :
    (wait_if_needed rl endpoint now).2 = oldest + windowSeconds rl
    ∧ 0 < oldest + windowSeconds rl - now := by
  have hlt : now - windowSeconds rl < oldest := filter_head_lt tss _ oldest rest hp
  have hwpos : 0 < oldest + windowSeconds rl - now := by omega
  unfold wait_if_needed
  rw [hend]
  dsimp only
  rw [hp]
  rw [if_pos hfull]
  dsimp only
  rw [if_pos hwpos]
  exact ⟨by omega, hwpos⟩

theorem record_request_append (rl : RateLimiter) (endpoint : String) (t : Int)
    (cur : List Int) (h : assocGet rl.request_timestamps endpoint = some cur) :
    assocGet (record_request rl endpoint t).request_timestamps endpoint
      = some (cur ++ [t]) := by
  unfold record_request
  rw [h]
  exact assocGet_assocSet_self _ _ _

/-- C8 amended: on each acquire for a known endpoint, timestamps at or before
now - window are pruned; when fewer than maxRequests remain the caller is
admitted immediately; when maxRequests or more remain the caller is suspended
once for exactly oldest + window - now — a strictly positive duration — and
then admitted without a re-check; the request timestamp is recorded at the
completion of the wrapped call (admission time plus its duration), not at
admission. -/
theorem C8_sliding_window_admission (rl : RateLimiter) (endpoint : String) (now d : Int)
    (tss : List Int)
    (hend : assocGet rl.request_timestamps endpoint = some tss)
    (_hmax : 0 < rl.max_requests) :
    assocGet (limit_request rl endpoint now d).1.request_timestamps endpoint
      = some ((tss.filter (fun ts => now - windowSeconds rl < ts))
          ++ [(limit_request rl endpoint now d).2.1 + d])
    ∧ (limit_request rl endpoint now d).2.2 = (limit_request rl endpoint now d).2.1 + d
    ∧ ((tss.filter (fun ts => now - windowSeconds rl < ts)).length < rl.max_requests →
        (limit_request rl endpoint now d).2.1 = now)
    ∧ (∀ oldest rest,
        tss.filter (fun ts => now - windowSeconds rl < ts) = oldest :: rest →
        rl.max_requests ≤ (oldest :: rest).length →
        (limit_request rl endpoint now d).2.1 = oldest + windowSeconds rl
        ∧ 0 < oldest + windowSeconds rl - now) := by
  have hw1 : assocGet (wait_if_needed rl endpoint now).1.request_timestamps endpoint
      = some (tss.filter (fun ts => now - windowSeconds rl < ts)) := by
    rw [wait_if_needed_state rl endpoint now tss hend]
    exact assocGet_assocSet_self _ _ _
  refine ⟨?_, rfl, ?_, ?_⟩
  · exact record_request_append _ endpoint _ _ hw1
  · intro hlow
    exact wait_if_needed_admit_low rl endpoint now tss hend hlow
  · intro oldest rest hp hfull
    exact wait_if_needed_admit_full rl endpoint now tss oldest rest hend hp hfull

/-- Witness for C8 amended: window of one minute with three timestamps still
inside it and max three requests — the fourth acquire at time 100 is admitted
at 110 = oldest(50) + window(60), and the call of duration 0 is recorded at
110. -/
theorem C8_sliding_window_admission_witness :
    (limit_request
        { max_requests := 3, window_minutes := 1,
          request_timestamps := [("default", [50, 60, 70])] }
        ("default") 100 0).2.1 = 110 := by
  have h := C8_sliding_window_admission
    { max_requests := 3, window_minutes := 1,
      request_timestamps := [("default", [50, 60, 70])] }
    ("default") 100 0 [50, 60, 70] rfl (by decide)
  have h2 := (h.2.2.2 50 [60, 70] (by decide) (by decide)).1
  rw [h2]
  decide

/-! ## C10: the one-hour freshness window of BlueskyMentionService -/

theorem bms_process_mention_logs (env : BMSEnv) (st : BMSState) (m : Mention) :
    (bms_process_mention env st m).1.genCalls = st.genCalls ++ [m.uri]
    ∧ ((bms_process_mention env st m).1.postedReplies = st.postedReplies
       ∨ (bms_process_mention env st m).1.postedReplies = st.postedReplies ++ [m.uri]) := by
  unfold bms_process_mention
  cases hg : env.generate_reply m with
  | none => exact ⟨rfl, Or.inl rfl⟩
  | some r =>
      cases hp : env.post_skeet m.uri with
      | none => exact ⟨rfl, Or.inl rfl⟩
      | some p => exact ⟨rfl, Or.inr rfl⟩

theorem handle_mentions_loop_no_calls (env : BMSEnv) (now : Int) (u : String) :
    ∀ (ms : List (Mention × Bool)) (st : BMSState) (acc : List (String × String)),
      (∀ p ∈ ms, (p : Mention × Bool).1.uri = u → 3600 < now - p.1.timestamp) →
      u ∉ st.genCalls → u ∉ st.postedReplies →
      u ∉ (handle_mentions_loop env now ms st acc).1.genCalls
      ∧ u ∉ (handle_mentions_loop env now ms st acc).1.postedReplies := by
  intro ms
  induction ms with
  | nil =>
      intro st acc _ hg hp
      exact ⟨hg, hp⟩
  | cons p0 rest ih =>
      obtain ⟨m0, b0⟩ := p0
      intro st acc hstale hg hp
      have hrest : ∀ p ∈ rest, (p : Mention × Bool).1.uri = u → 3600 < now - p.1.timestamp :=
        fun p hp2 he => hstale p (List.mem_cons_of_mem (m0, b0) hp2) he
      cases hs : should_process_mention st.processed_mentions now m0 b0 with
      | typeError =>
          have hstep : handle_mentions_loop env now ((m0, b0) :: rest) st acc = (st, none) := by
            simp [handle_mentions_loop, hs]
          rw [hstep]
          exact ⟨hg, hp⟩
      | ret b =>
          cases b with
          | false =>
              have hstep : handle_mentions_loop env now ((m0, b0) :: rest) st acc
                  = handle_mentions_loop env now rest st acc := by
                simp [handle_mentions_loop, hs]
              rw [hstep]
              exact ih st acc hrest hg hp
          | true =>
              have hne : u ≠ m0.uri := by
                intro he
                have h1 := hstale (m0, b0) (List.mem_cons_self (m0, b0) rest) he.symm
                unfold should_process_mention at hs
                by_cases hmem0 : m0.uri ∈ st.processed_mentions
                · rw [if_pos hmem0] at hs
                  exact absurd (GuardResult.ret.inj hs) (by decide)
                · rw [if_neg hmem0] at hs
                  cases b0 with
                  | true =>
                      rw [if_pos rfl] at hs
                      exact GuardResult.noConfusion hs
                  | false =>
                      rw [if_neg (by decide), if_pos h1] at hs
                      exact absurd (GuardResult.ret.inj hs) (by decide)
              have hlog := bms_process_mention_logs env st m0
              have hg1 : u ∉ (bms_process_mention env st m0).1.genCalls := by
                rw [hlog.1]
                simp [List.mem_append, hg, hne]
              have hp1 : u ∉ (bms_process_mention env st m0).1.postedReplies := by
                rcases hlog.2 with h | h
                · rw [h]; exact hp
                · rw [h]; simp [List.mem_append, hp, hne]
              cases hr : (bms_process_mention env st m0).2 with
              | some r =>
                  have hstep : handle_mentions_loop env now ((m0, b0) :: rest) st acc
                      = handle_mentions_loop env now rest (bms_process_mention env st m0).1
                          (acc ++ [(m0.uri, r)]) := by
                    simp [handle_mentions_loop, hs, hr]
                  rw [hstep]
                  exact ih _ _ hrest hg1 hp1
              | none =>
                  have hstep : handle_mentions_loop env now ((m0, b0) :: rest) st acc
                      = handle_mentions_loop env now rest (bms_process_mention env st m0).1
                          acc := by
                    simp [handle_mentions_loop, hs, hr]
                  rw [hstep]
                  exact ih _ _ hrest hg1 hp1

theorem handle_mentions_fst (env : BMSEnv) (now : Int) (st : BMSState)
    (ms : List (Mention × Bool)) :
    (handle_mentions env now st ms).1 = (handle_mentions_loop env now ms st []).1 := by
  unfold handle_mentions
  cases hl : handle_mentions_loop env now ms st [] with
  | mk st1 r => cases r <;> rfl

/-- When every batch entry has an offset-aware timestamp — the only form the
two clients produce — the scan mutates nothing and handles nothing: entries
with processed uris are skipped, and the first unprocessed entry raises the
TypeError that aborts the loop, so the state is returned unchanged and the
result list is empty. -/
theorem handle_mentions_all_aware (env : BMSEnv) (now : Int) :
    ∀ (ms : List (Mention × Bool)) (st : BMSState),
      (∀ p ∈ ms, (p : Mention × Bool).2 = true) →
      (handle_mentions env now st ms).1 = st ∧ (handle_mentions env now st ms).2 = [] := by
  have hloop : ∀ (ms : List (Mention × Bool)) (st : BMSState),
      (∀ p ∈ ms, (p : Mention × Bool).2 = true) →
      handle_mentions_loop env now ms st [] = (st, some [])
      ∨ handle_mentions_loop env now ms st [] = (st, none) := by
    intro ms
    induction ms with
    | nil =>
        intro st _
        exact Or.inl rfl
    | cons p0 rest ih =>
        obtain ⟨m0, b0⟩ := p0
        intro st hall
        have hb0 : b0 = true := hall (m0, b0) (List.mem_cons_self (m0, b0) rest)
        subst hb0
        have hrest : ∀ p ∈ rest, (p : Mention × Bool).2 = true :=
          fun p hp2 => hall p (List.mem_cons_of_mem (m0, true) hp2)
        by_cases hmem0 : m0.uri ∈ st.processed_mentions
        · have hs : should_process_mention st.processed_mentions now m0 true
              = GuardResult.ret false := by
            unfold should_process_mention
            rw [if_pos hmem0]
          have hstep : handle_mentions_loop env now ((m0, true) :: rest) st []
              = handle_mentions_loop env now rest st [] := by
            simp [handle_mentions_loop, hs]
          rw [hstep]
          exact ih st hrest
        · have hs : should_process_mention st.processed_mentions now m0 true
              = GuardResult.typeError := by
            unfold should_process_mention
            rw [if_neg hmem0, if_pos rfl]
          have hstep : handle_mentions_loop env now ((m0, true) :: rest) st []
              = (st, none) := by
            simp [handle_mentions_loop, hs]
          rw [hstep]
          exact Or.inr rfl
  intro ms st hall
  rcases hloop ms st hall with h | h
  · constructor <;> · unfold handle_mentions; rw [h]
  · constructor <;> · unfold handle_mentions; rw [h]

/-- C10: a mention more than 3600 seconds old at check time is never handled
by `handle_mentions` — no generation call is made for its uri and no reply is
posted to it, whether or not the uri was ever marked processed (the staleness
hypothesis covers every batch entry with that uri, so redelivered duplicates
are included).  The guard conjuncts trace the source exactly: a stale mention
with an offset-naive timestamp returns false via the staleness branch; an
unprocessed mention with an offset-aware timestamp — the form both clients
actually supply — makes the naive-minus-aware subtraction raise TypeError, so
the guard never returns a boolean for it and an all-aware batch mutates
nothing and handles nothing; the guard returns true exactly for mentions that
are unprocessed, offset-naive, and at most one hour old — so only such
mentions can ever be handled. -/
theorem C10_stale_mentions_skipped (env : BMSEnv) (now : Int) (st : BMSState)
    (ms : List (Mention × Bool)) (m : Mention) (b : Bool) (hmem : (m, b) ∈ ms)
    (hstale : ∀ p ∈ ms, (p : Mention × Bool).1.uri = m.uri → 3600 < now - p.1.timestamp)
    (hg : m.uri ∉ st.genCalls) (hp : m.uri ∉ st.postedReplies) :
    m.uri ∉ (handle_mentions env now st ms).1.genCalls
    ∧ m.uri ∉ (handle_mentions env now st ms).1.postedReplies
    ∧ (∀ pm, should_process_mention pm now m false = GuardResult.ret false)
    ∧ (∀ pm, m.uri ∉ pm → should_process_mention pm now m true = GuardResult.typeError)
    ∧ (∀ (pm : List String) (m2 : Mention) (b2 : Bool),
        should_process_mention pm now m2 b2 = GuardResult.ret true ↔
          (m2.uri ∉ pm ∧ b2 = false ∧ now - m2.timestamp ≤ 3600))
    ∧ (∀ (ms2 : List (Mention × Bool)) (st2 : BMSState),
        (∀ p ∈ ms2, (p : Mention × Bool).2 = true) →
        (handle_mentions env now st2 ms2).1 = st2
        ∧ (handle_mentions env now st2 ms2).2 = []) := by
  have hm0 : 3600 < now - m.timestamp := hstale (m, b) hmem rfl
  have hmain := handle_mentions_loop_no_calls env now m.uri ms st [] hstale hg hp
  have hfst := handle_mentions_fst env now st ms
  refine ⟨by rw [hfst]; exact hmain.1, by rw [hfst]; exact hmain.2, ?_, ?_, ?_,
    handle_mentions_all_aware env now⟩
  · intro pm
    unfold should_process_mention
    by_cases h1 : m.uri ∈ pm
    · rw [if_pos h1]
    · rw [if_neg h1, if_neg (by decide), if_pos hm0]
  · intro pm hnp
    unfold should_process_mention
    rw [if_neg hnp, if_pos rfl]
  · intro pm m2 b2
    unfold should_process_mention
    by_cases ha : m2.uri ∈ pm
    · rw [if_pos ha]
      constructor
      · intro hcontra
        exact absurd (GuardResult.ret.inj hcontra) (by decide)
      · rintro ⟨hc, _⟩
        exact absurd ha hc
    · rw [if_neg ha]
      cases b2 with
      | true =>
          rw [if_pos rfl]
          constructor
          · intro hcontra
            exact GuardResult.noConfusion hcontra
          · rintro ⟨_, hb, _⟩
            exact absurd hb (by decide)
      | false =>
          rw [if_neg (by decide)]
          by_cases hb : 3600 < now - m2.timestamp
          · rw [if_pos hb]
            constructor
            · intro hcontra
              exact absurd (GuardResult.ret.inj hcontra) (by decide)
            · rintro ⟨_, _, hc⟩
              omega
          · rw [if_neg hb]
            constructor
            · intro _
              exact ⟨ha, rfl, by omega⟩
            · intro _
              rfl

/-- A trivially succeeding environment for the C10 witness. -/
def bmsEnvW : BMSEnv :=
  { generate_reply := fun _ => some ("r"), post_skeet := fun _ => some ("p") }

/-- A fresh BlueskyMentionService state. -/
def bmsSt0 : BMSState :=
  { processed_mentions := [], genCalls := [], postedReplies := [] }

/-- A mention indexed at time 0, checked at time 7200: two hours old. -/
def mStale : Mention :=
  { uri := "at://old", text := "t", author := "a", reply_to := none, timestamp := 0 }

/-- Witness for C10: the two-hour-old mention, delivered with the offset-aware
timestamp form the clients produce, gets no generation call and no reply even
though it was never marked processed. -/
theorem C10_stale_mentions_skipped_witness :
    mStale.uri ∉ (handle_mentions bmsEnvW 7200 bmsSt0 [(mStale, true)]).1.genCalls
    ∧ mStale.uri ∉ (handle_mentions bmsEnvW 7200 bmsSt0 [(mStale, true)]).1.postedReplies := by
  have h := C10_stale_mentions_skipped bmsEnvW 7200 bmsSt0 [(mStale, true)] mStale true
    (by decide) (by decide) (by decide) (by decide)
  exact ⟨h.1, h.2.1⟩

end RoastBob
